import Mathlib

/-!
Verification development for the XeRender deterministic water-rendering
benchmarking harness (`WaterTestingSystem.cpp` / `WaterTestingSystem.h`).

Modelling conventions used throughout this shallow embedding:

* C++ `double`/`float` values are embedded as `ℚ` (exact arithmetic); all
  the properties verified here concern comparisons, selections and exact
  blending weights, which the rational model captures faithfully.
* `std::sqrt` appears in the source only inside `calculateStdDev` (whose
  result is consumed by the outlier test `|v - mean| > threshold * stddev`
  and by report fields).  Since a square root of a rational is in general
  irrational, the embedding stores the *square* of the standard deviation
  (the `n-1`-denominator sample variance) and expresses the outlier test
  on squares: for `threshold ≥ 0` and `stddev = √variance ≥ 0`,
  `|v - mean| > threshold * stddev  ↔  (v - mean)² > threshold² * variance`,
  so the embedded Boolean decision coincides exactly with the source's.
* `std::string` is embedded as `List Char`.
* `uint64_t` timestamp tick values are embedded as `ℕ`; `int` fields of the
  configuration as `ℤ`, with the C++ `static_cast<uint32_t>` modelled
  explicitly where the source performs it.
* `std::vector<T>` is embedded as `List T`.
-/

set_option maxHeartbeats 1000000

namespace XeRender

/-! ## Statistics helpers (`WaterTestingSystem.cpp`, lines 1011-1051) -/

/-- Ascending sort on rationals.  Models the two `std::sort(values.begin(),
values.end())` calls in `calculateMedian` and `calculatePercentile`; on a
totally ordered list of rationals the ascending-sorted permutation is unique,
so any correct sorting algorithm is an exact model. -/
def sortAsc (l : List ℚ) : List ℚ := List.insertionSort (· ≤ ·) l

/-- Models the C++ `static_cast<size_t>` applied to a non-negative `double`
(truncation toward zero, which on non-negative arguments is the floor).  The
only call site (`calculatePercentile`) passes `percentile/100 * (n-1)` with
`percentile ∈ {1, 99}`, which is non-negative. -/
def castSizeT (q : ℚ) : ℕ := (⌊q⌋).toNat

/-- `WaterTestingSystem::calculateMean` (lines 1011-1016): `0.0` on an empty
list, otherwise the sum divided by the element count. -/
def calculateMean (values : List ℚ) : ℚ :=
  if values.isEmpty then 0 else values.sum / (values.length : ℚ)

/-- `WaterTestingSystem::calculateMedian` (lines 1018-1029): `0.0` on an empty
list; otherwise sort ascending and return the middle element, or the average
of the two middle elements for an even count. -/
def calculateMedian (values : List ℚ) : ℚ :=
  if values.isEmpty then 0 else
  let s := sortAsc values
  let n := s.length
  if n % 2 = 0 then (s.getD (n / 2 - 1) 0 + s.getD (n / 2) 0) / 2
  else s.getD (n / 2) 0

/-- Square of `WaterTestingSystem::calculateStdDev` (lines 1031-1042): the
sample variance with `n-1` denominator, `0` when fewer than two values.  The
C++ function returns `std::sqrt` of this quantity; the embedding keeps the
square (see the module docstring). -/
def calculateStdDevSq (values : List ℚ) (mean : ℚ) : ℚ :=
  if values.length < 2 then 0
  else (values.map (fun v => (v - mean) ^ 2)).sum / ((values.length - 1 : ℕ) : ℚ)

/-- `WaterTestingSystem::isOutlier` (lines 940-943): `|value - mean| >
threshold * stddev`, expressed on squares against the stored variance
`stddevSq` (equivalent for the non-negative `threshold = 5` and
`stddev = √stddevSq ≥ 0`). -/
def isOutlier (value mean stddevSq threshold : ℚ) : Bool :=
  decide ((value - mean) ^ 2 > threshold ^ 2 * stddevSq)

/-- `WaterTestingSystem::calculatePercentile` (lines 1044-1051): `0.0` on an
empty list; otherwise sort ascending and return the element at index
`static_cast<size_t>((percentile / 100.0) * (values.size() - 1))` —
truncation of the scaled rank, not rounding. -/
def calculatePercentile (values : List ℚ) (percentile : ℚ) : ℚ :=
  if values.isEmpty then 0 else
  (sortAsc values).getD (castSizeT (percentile / 100 * ((values.length - 1 : ℕ) : ℚ))) 0

/-- Helper for `*std::min_element` on a non-empty vector (`0` for empty,
which the source never queries). -/
def listMin (l : List ℚ) : ℚ :=
  match l with
  | [] => 0
  | x :: xs => xs.foldl min x

/-- Helper for `*std::max_element` on a non-empty vector. -/
def listMax (l : List ℚ) : ℚ :=
  match l with
  | [] => 0
  | x :: xs => xs.foldl max x

/-! ## Data model (`WaterTestingSystem.h`) -/

/-- `WaterTestConfig` (header lines 119-150).  The four enumeration axes are
embedded by their integer codes (the source only ever converts them with
`static_cast<int>` for naming and CSV export). -/
structure WaterTestConfig where
  name : List Char := []
  turbidity : ℤ := 1
  depth : ℤ := 0
  lightMotion : ℤ := 0
  renderingMode : ℤ := 1
  sampleCount : ℤ := 8
  causticRayCount : ℤ := 64
  asyncEnabled : Bool := false
  tilingEnabled : Bool := false
  totalFrames : ℤ := 120
  warmupFrames : ℤ := 5
  repeatCount : ℤ := 3
deriving DecidableEq

/-- `FrameMetrics` (header lines 290-313).  `cameraPosition` is the glm
3-vector as a triple. -/
structure FrameMetrics where
  frameIndex : ℕ := 0
  frameTimeMs : ℚ := 0
  gpuTimeMs : ℚ := 0
  cpuTimeMs : ℚ := 0
  timestampNs : ℕ := 0
  gpuMemoryUsedBytes : ℕ := 0
  waterPassTimeMs : ℚ := 0
  scenePassTimeMs : ℚ := 0
  postProcessTimeMs : ℚ := 0
  cameraPosition : ℚ × ℚ × ℚ := (0, 0, 0)
  cameraYaw : ℚ := 0
  cameraPitch : ℚ := 0
  isWarmupFrame : Bool := false
  isOutlier : Bool := false
deriving DecidableEq

instance : Inhabited FrameMetrics := ⟨{}⟩

/-- `AggregatedRunMetrics` (header lines 335-367).  The field defaults model
the zero value-initialisation `AggregatedRunMetrics agg{}` that the source
always uses.  `stddevFrameTimeSq` / `stddevGpuTimeSq` store the squares of
the C++ `stddevFrameTime` / `stddevGpuTime` (see module docstring). -/
structure AggregatedRunMetrics where
  configName : List Char := []
  runIndex : ℤ := 0
  validFrameCount : ℤ := 0
  outlierCount : ℤ := 0
  meanFrameTime : ℚ := 0
  medianFrameTime : ℚ := 0
  stddevFrameTimeSq : ℚ := 0
  minFrameTime : ℚ := 0
  maxFrameTime : ℚ := 0
  percentile1Low : ℚ := 0
  percentile99 : ℚ := 0
  meanFPS : ℚ := 0
  medianFPS : ℚ := 0
  fps1Low : ℚ := 0
  meanGpuTime : ℚ := 0
  medianGpuTime : ℚ := 0
  stddevGpuTimeSq : ℚ := 0
  avgSSIM : ℚ := 0
  avgPSNR : ℚ := 0
  temporalStability : ℚ := 0
deriving DecidableEq

instance : Inhabited AggregatedRunMetrics := ⟨{}⟩

/-! ## Statistical aggregation (`WaterTestingSystem::aggregateMetrics`,
lines 693-772).

The source first copies the non-warm-up frame times and GPU times into two
parallel vectors (same index order), then filters both by the outlier test on
the frame time.  The embedding names each intermediate list so that the
theorems can speak about them. -/

/-- Step 1 of `aggregateMetrics`: the frames with `isWarmupFrame == false`,
in order. -/
def nonWarmupFrames (raw : List FrameMetrics) : List FrameMetrics :=
  raw.filter (fun m => !m.isWarmupFrame)

/-- The `frameTimes` vector built by step 1. -/
def frameTimesOf (raw : List FrameMetrics) : List ℚ :=
  (nonWarmupFrames raw).map (fun m => m.frameTimeMs)

/-- The `gpuTimes` vector built by step 1 (parallel to `frameTimesOf`). -/
def gpuTimesOf (raw : List FrameMetrics) : List ℚ :=
  (nonWarmupFrames raw).map (fun m => m.gpuTimeMs)

/-- The parallel iteration of step 3 pairs `frameTimes[i]` with
`gpuTimes[i]`. -/
def timePairsOf (raw : List FrameMetrics) : List (ℚ × ℚ) :=
  (frameTimesOf raw).zip (gpuTimesOf raw)

/-- Step 2: mean of the non-warm-up frame times. -/
def runMean (raw : List FrameMetrics) : ℚ :=
  calculateMean (frameTimesOf raw)

/-- Step 2: sample variance (squared `stddev`) of the non-warm-up frame
times. -/
def runStdDevSq (raw : List FrameMetrics) : ℚ :=
  calculateStdDevSq (frameTimesOf raw) (runMean raw)

/-- Step 3: the (frameTime, gpuTime) pairs surviving the 5-sigma outlier
test. -/
def cleanPairsOf (raw : List FrameMetrics) : List (ℚ × ℚ) :=
  (timePairsOf raw).filter (fun p => !isOutlier p.1 (runMean raw) (runStdDevSq raw) 5)

/-- Step 3: the number of pairs rejected by the 5-sigma outlier test (the
`outlierCount++` branch). -/
def outlierCountOf (raw : List FrameMetrics) : ℕ :=
  (timePairsOf raw).countP (fun p => isOutlier p.1 (runMean raw) (runStdDevSq raw) 5)

/-- The `cleanFrameTimes` vector of step 3. -/
def cleanFrameTimesOf (raw : List FrameMetrics) : List ℚ :=
  (cleanPairsOf raw).map (fun p => p.1)

/-- The `cleanGpuTimes` vector of step 3. -/
def cleanGpuTimesOf (raw : List FrameMetrics) : List ℚ :=
  (cleanPairsOf raw).map (fun p => p.2)

/-- The `fpsValues` vector: `1000/ft` for every clean frame time `ft > 0`. -/
def fpsValuesOf (raw : List FrameMetrics) : List ℚ :=
  ((cleanFrameTimesOf raw).filter (fun ft => decide (0 < ft))).map (fun ft => 1000 / ft)

/-- `WaterTestingSystem::aggregateMetrics` (lines 693-772).  Mirrors the
source control flow: zero rollup (with the config name) if no non-warm-up
frames; counts set after outlier rejection; early return if no clean frames;
otherwise the full statistics block. -/
def aggregateMetrics (raw : List FrameMetrics) (config : WaterTestConfig) :
    AggregatedRunMetrics :=
  let agg0 : AggregatedRunMetrics := { configName := config.name }
  if (frameTimesOf raw).isEmpty then agg0 else
  let agg1 : AggregatedRunMetrics :=
    { agg0 with
      validFrameCount := ((cleanFrameTimesOf raw).length : ℤ)
      outlierCount := (outlierCountOf raw : ℤ) }
  if (cleanFrameTimesOf raw).isEmpty then agg1 else
  { agg1 with
    meanFrameTime := calculateMean (cleanFrameTimesOf raw)
    medianFrameTime := calculateMedian (cleanFrameTimesOf raw)
    stddevFrameTimeSq :=
      calculateStdDevSq (cleanFrameTimesOf raw) (calculateMean (cleanFrameTimesOf raw))
    minFrameTime := listMin (cleanFrameTimesOf raw)
    maxFrameTime := listMax (cleanFrameTimesOf raw)
    percentile1Low := calculatePercentile (cleanFrameTimesOf raw) 99
    percentile99 := calculatePercentile (cleanFrameTimesOf raw) 99
    meanFPS := calculateMean (fpsValuesOf raw)
    medianFPS := calculateMedian (fpsValuesOf raw)
    fps1Low := calculatePercentile (fpsValuesOf raw) 1
    meanGpuTime := calculateMean (cleanGpuTimesOf raw)
    medianGpuTime := calculateMedian (cleanGpuTimesOf raw)
    stddevGpuTimeSq :=
      calculateStdDevSq (cleanGpuTimesOf raw) (calculateMean (cleanGpuTimesOf raw)) }

/-! ## Test execution (`WaterTestingSystem.cpp`, lines 184-283).

The recording-related mutable members of `WaterTestingSystem`
(`m_isRunning`, `m_currentFrameIndex`, `m_currentConfig`,
`m_currentResult`, `m_lastGpuTimeMs`) are collected in `TestSystemState`;
the GPU-timer flag members are modelled separately below with the timing
functions that are the only code touching them.  Wall-clock reads
(`std::chrono::...::now()`) are external inputs and are passed in as
parameters. -/

/-- `TestRunResult` (header lines 373-384), restricted to the fields the
source assigns in this translation unit.  The wall-clock `startTime` /
`endTime` and the optional image-quality vectors are omitted (never read by
the aggregation or raw-export paths under verification). -/
structure TestRunResult where
  config : WaterTestConfig := {}
  runIndex : ℤ := 0
  frameMetrics : List FrameMetrics := []
  aggregated : AggregatedRunMetrics := {}
deriving DecidableEq

/-- The recording-related state of a `WaterTestingSystem` instance. -/
structure TestSystemState where
  isRunning : Bool := false
  currentFrameIndex : ℕ := 0
  currentConfig : WaterTestConfig := {}
  currentRunIndex : ℤ := 0
  frameMetrics : List FrameMetrics := []
  lastGpuTimeMs : ℚ := 0
deriving DecidableEq

/-- The C++ `static_cast<uint32_t>` on an `int` value: reduction modulo
`2^32` (two's-complement reinterpretation). -/
def uint32OfInt (w : ℤ) : ℕ := (w % 2 ^ 32).toNat

/-- `WaterTestingSystem::startTestRun` (lines 184-216): raises the running
flag, zeroes the frame counter, snapshots the config and run index, clears
the frame buffer and resets the last GPU time. -/
def startTestRun (st : TestSystemState) (config : WaterTestConfig) (runIndex : ℤ) :
    TestSystemState :=
  { st with
    isRunning := true
    currentFrameIndex := 0
    currentConfig := config
    currentRunIndex := runIndex
    frameMetrics := []
    lastGpuTimeMs := 0 }

/-- The `FrameMetrics` record built by `recordFrame` (lines 229-242) from the
state and the per-call inputs.  `frameIndex` is `m_currentFrameIndex` (the
caller-supplied argument is not used); `cpuTimeMs` is the clamped difference;
`isWarmupFrame` compares the internal counter against
`static_cast<uint32_t>(config.warmupFrames)`. -/
def mkFrameMetrics (st : TestSystemState) (frameTimeMs : ℚ) (nowNs : ℕ)
    (camPos : ℚ × ℚ × ℚ) (yaw pitch : ℚ) : FrameMetrics :=
  let cpu := frameTimeMs - st.lastGpuTimeMs
  { frameIndex := st.currentFrameIndex
    frameTimeMs := frameTimeMs
    gpuTimeMs := st.lastGpuTimeMs
    cpuTimeMs := if cpu < 0 then 0 else cpu
    timestampNs := nowNs
    cameraPosition := camPos
    cameraYaw := yaw
    cameraPitch := pitch
    isWarmupFrame := decide (st.currentFrameIndex < uint32OfInt st.currentConfig.warmupFrames)
    isOutlier := false }

/-- `WaterTestingSystem::recordFrame` (lines 218-257): no-op when no run is
active; otherwise appends the freshly built record and increments the
`uint32_t` frame counter.  The first argument models the caller-supplied
`frameIndex` parameter, which the body never reads. -/
def recordFrame (st : TestSystemState) (frameIndexArg : ℕ) (frameTimeMs : ℚ)
    (nowNs : ℕ) (camPos : ℚ × ℚ × ℚ) (yaw pitch : ℚ) : TestSystemState :=
  if !st.isRunning then st else
  { st with
    frameMetrics := st.frameMetrics ++ [mkFrameMetrics st frameTimeMs nowNs camPos yaw pitch]
    currentFrameIndex := (st.currentFrameIndex + 1) % 2 ^ 32 }

/-- `WaterTestingSystem::endTestRun` (lines 259-275): lowers the running
flag and aggregates `m_currentResult.frameMetrics` (which it does not
modify — `aggregateMetrics` takes the vector by const reference) into the
returned `TestRunResult`. -/
def endTestRun (st : TestSystemState) : TestRunResult × TestSystemState :=
  ({ config := st.currentConfig
     runIndex := st.currentRunIndex
     frameMetrics := st.frameMetrics
     aggregated := aggregateMetrics st.frameMetrics st.currentConfig },
   { st with isRunning := false })

/-! ## Deterministic camera path (`WaterTestingSystem.h`, lines 156-206) -/

/-- `CameraKeyframe` (header lines 156-162). -/
structure CameraKeyframe where
  position : ℚ × ℚ × ℚ := (0, 0, 0)
  yaw : ℚ := 0
  pitch : ℚ := 0
  timestamp : ℚ := 0
deriving DecidableEq

instance : Inhabited CameraKeyframe := ⟨{}⟩

/-- `DeterministicCameraPath` (header lines 164-206), data part. -/
structure DeterministicCameraPath where
  name : List Char := []
  keyframes : List CameraKeyframe := []
  totalDuration : ℚ := 10
deriving DecidableEq

/-- `glm::clamp(t, 0.0f, 1.0f)`. -/
def glmClamp01 (t : ℚ) : ℚ := min (max t 0) 1

/-- `glm::mix(a, b, s) = a * (1 - s) + b * s` on scalars. -/
def glmMix (a b s : ℚ) : ℚ := a * (1 - s) + b * s

/-- `glm::mix` on 3-vectors, componentwise. -/
def glmMix3 (a b : ℚ × ℚ × ℚ) (s : ℚ) : ℚ × ℚ × ℚ :=
  (glmMix a.1 b.1 s, glmMix a.2.1 b.2.1 s, glmMix a.2.2 b.2.2 s)

/-- The scan loop of `DeterministicCameraPath::interpolate` (header lines
181-186): `for (i = 0; i < keyframes.size() - 1; ++i) if (keyframes[i+1].
timestamp >= t) break;` — the smallest `i < size - 1` with
`keyframes[i+1].timestamp ≥ t`, or `size - 1` when none exists. -/
def findSegmentIndex (t : ℚ) : List CameraKeyframe → ℕ
  | [] => 0
  | [_] => 0
  | _ :: k1 :: rest =>
      if t ≤ k1.timestamp then 0 else findSegmentIndex t (k1 :: rest) + 1

/-- `DeterministicCameraPath::interpolate` (header lines 171-206): default
pose for an empty path, the sole keyframe for a singleton, otherwise clamp
`t`, locate the segment, compute the smoothstep-eased local parameter and
blend position / yaw / pitch. -/
def interpolate (path : DeterministicCameraPath) (tIn : ℚ) : CameraKeyframe :=
  if path.keyframes.isEmpty then default
  else if path.keyframes.length = 1 then path.keyframes.getD 0 default
  else
    let t := glmClamp01 tIn
    let i := findSegmentIndex t path.keyframes
    let k0 := path.keyframes.getD i default
    let nextIdx := if i + 1 < path.keyframes.length then i + 1 else path.keyframes.length - 1
    let k1 := path.keyframes.getD nextIdx default
    let segmentT :=
      if k0.timestamp < k1.timestamp then (t - k0.timestamp) / (k1.timestamp - k0.timestamp)
      else 0
    let smoothT := segmentT * segmentT * (3 - 2 * segmentT)
    { position := glmMix3 k0.position k1.position smoothT
      yaw := k0.yaw + (k1.yaw - k0.yaw) * smoothT
      pitch := k0.pitch + (k1.pitch - k0.pitch) * smoothT
      timestamp := t }

/-- Pose equality: the three pose components (position, yaw, pitch) agree;
the `timestamp` field of an interpolation result is the query time itself. -/
def PoseEq (a b : CameraKeyframe) : Prop :=
  a.position = b.position ∧ a.yaw = b.yaw ∧ a.pitch = b.pitch

/-! ## GPU timing state machine (`WaterTestingSystem.cpp`, lines 74-178).

The timer members of `WaterTestingSystem` are modelled as `GpuTimerState`.
`poolValid` is `m_timestampQueryPool != VK_NULL_HANDLE`; no operation in the
translation unit changes it except `createTimestampQueryPool` / `cleanup`,
which are outside the per-frame protocol.  The device-side effects
(`vkCmdWriteTimestamp`, `vkGetQueryPoolResults`) are external: the write
functions also return whether the timestamp command was actually issued, and
the read takes the device's reported result as an input. -/

structure GpuTimerState where
  poolValid : Bool := true
  timestampPeriod : ℚ := 1
  timestampsWritten : Bool := false
  startTimestampWritten : Bool := false
  queryPoolNeedsReset : Bool := true
  lastGpuTimeMs : ℚ := 0
deriving DecidableEq

/-- Outcome of the `vkGetQueryPoolResults` call in `readGpuTimestamps`:
success with the two 64-bit tick values, `VK_NOT_READY`, or any other
failure code. -/
inductive DeviceReadResult where
  | success (startTicks endTicks : ℕ)
  | notReady
  | otherError
deriving DecidableEq

/-- `WaterTestingSystem::resetTimestampQueries` (lines 74-84): no-op without
a valid pool or command buffer, otherwise clears both written flags and the
needs-reset flag. -/
def resetTimestampQueries (st : GpuTimerState) (cmdValid : Bool) : GpuTimerState :=
  if !st.poolValid || !cmdValid then st
  else
    { st with
      timestampsWritten := false
      startTimestampWritten := false
      queryPoolNeedsReset := false }

/-- `WaterTestingSystem::writeTimestampStart` (lines 86-102).  Returns the
new state and whether `vkCmdWriteTimestamp` was issued. -/
def writeTimestampStart (st : GpuTimerState) (cmdValid : Bool) :
    GpuTimerState × Bool :=
  if !st.poolValid || !cmdValid then (st, false)
  else if st.queryPoolNeedsReset then ({ st with startTimestampWritten := false }, false)
  else ({ st with startTimestampWritten := true }, true)

/-- `WaterTestingSystem::writeTimestampEnd` (lines 104-120).  Returns the
new state and whether `vkCmdWriteTimestamp` was issued; skipped entirely
when the start timestamp was not written this generation. -/
def writeTimestampEnd (st : GpuTimerState) (cmdValid : Bool) :
    GpuTimerState × Bool :=
  if !st.poolValid || !cmdValid then (st, false)
  else if !st.startTimestampWritten then (st, false)
  else ({ st with timestampsWritten := true }, true)

/-- `WaterTestingSystem::readGpuTimestamps` (lines 122-178): zeroes the
stored time when the pool is invalid; returns unchanged when no timestamp
pair was written; otherwise consults the device result, storing
`(end - start) * period / 1e6` only on success with `end > start`, and in
every consulted case clears `timestampsWritten`. -/
def readGpuTimestamps (st : GpuTimerState) (dr : DeviceReadResult) : GpuTimerState :=
  if !st.poolValid then { st with lastGpuTimeMs := 0 }
  else if !st.timestampsWritten then st
  else
    let st1 :=
      match dr with
      | .success s e =>
          if s < e then
            { st with lastGpuTimeMs := ((e - s : ℕ) : ℚ) * st.timestampPeriod / 1000000 }
          else st
      | .notReady => st
      | .otherError => st
    { st1 with timestampsWritten := false }

/-- The reset performed by `startTestRun` (lines 190-194) on the timer
members: needs-reset raised, both written flags cleared, stored time
zeroed. -/
def startRunTimerReset (st : GpuTimerState) : GpuTimerState :=
  { st with
    queryPoolNeedsReset := true
    timestampsWritten := false
    startTimestampWritten := false
    lastGpuTimeMs := 0 }

/-- One operation of the GPU-timer protocol, as invoked by the host frame
loop. -/
inductive TimerOp where
  | reset (cmdValid : Bool)
  | writeStart (cmdValid : Bool)
  | writeEnd (cmdValid : Bool)
  | read (dr : DeviceReadResult)
  | startRun
deriving DecidableEq

/-- State transition of a single timer operation. -/
def timerStep (st : GpuTimerState) : TimerOp → GpuTimerState
  | .reset c => resetTimestampQueries st c
  | .writeStart c => (writeTimestampStart st c).1
  | .writeEnd c => (writeTimestampEnd st c).1
  | .read dr => readGpuTimestamps st dr
  | .startRun => startRunTimerReset st

/-- Run a sequence of timer operations. -/
def runTimerOps (st : GpuTimerState) (ops : List TimerOp) : GpuTimerState :=
  ops.foldl timerStep st

/-- `writeTimestampStart` succeeds (issues the device command and arms the
pair) exactly when the pool and command buffer are valid and the reset has
been issued this generation. -/
def startSucceeds (st : GpuTimerState) (cmdValid : Bool) : Bool :=
  st.poolValid && cmdValid && !st.queryPoolNeedsReset

/-- Holds when no operation of `ops`, run from `st`, is a successful
start-write ("writeTimestampStart has not succeeded"). -/
def NoStartSuccess : GpuTimerState → List TimerOp → Prop
  | _, [] => True
  | st, op :: rest =>
      (match op with
       | .writeStart c => startSucceeds st c = false
       | _ => True) ∧ NoStartSuccess (timerStep st op) rest

/-! ## CSV export (`WaterTestingSystem.cpp`, lines 778-929 and 1142-1158).

Strings are `List Char`.  The numeric renderings of the stream inserters
(`std::fixed << std::setprecision(...)`) are abstracted by formatter
parameters: `fmtInt` for integral fields, `fmtQ` for `double` fields printed
directly, and `fmtSqrt` for the two stddev columns (whose C++ value is the
square root of the stored variance).  The escaping behaviour under
verification is independent of these renderings. -/

/-- `TestReportGenerator::escapeCSV` (lines 1142-1158): if the field contains
a comma or a double quote, wrap it in double quotes, doubling every embedded
double quote; otherwise return it unchanged.  The builder mirrors the
character-append loop. -/
def escapeCSV (s : List Char) : List Char :=
  if s.contains ',' || s.contains '"' then
    (s.foldl (fun acc c => acc ++ (if c = '"' then ['"', '"'] else [c])) ['"']) ++ ['"']
  else s

/-- Follows the spec's words for claim C8: a field "quote-escaped" is
"wrapped in double quotes with each embedded quote doubled". -/
def specQuoteEscape (s : List Char) : List Char :=
  ['"'] ++ s.flatMap (fun c => if c = '"' then ['"', '"'] else [c]) ++ ['"']

/-- The data-row fields written by `WaterTestingSystem::appendRunToCSV`
(lines 878-901), in stream order.  `ts` is the rendered
`formatTimestamp(run.endTime)` (wall-clock, external). -/
def appendRunRowFields (run : TestRunResult) (ts : List Char)
    (fmtInt : ℤ → List Char) (fmtQ : ℚ → List Char) (fmtSqrt : ℚ → List Char) :
    List (List Char) :=
  let a := run.aggregated
  let c := run.config
  [ts, c.name, fmtInt run.runIndex, fmtInt a.validFrameCount, fmtInt a.outlierCount,
   fmtQ a.meanFPS, fmtQ a.medianFPS, fmtQ a.fps1Low, fmtQ a.meanFrameTime,
   fmtQ a.medianFrameTime, fmtSqrt a.stddevFrameTimeSq, fmtQ a.minFrameTime,
   fmtQ a.maxFrameTime, fmtQ a.percentile99, fmtQ a.meanGpuTime, fmtQ a.medianGpuTime,
   fmtSqrt a.stddevGpuTimeSq, fmtInt c.turbidity, fmtInt c.depth, fmtInt c.lightMotion,
   fmtInt c.renderingMode, fmtInt c.sampleCount, fmtInt c.causticRayCount]

/-- The per-run data-row fields written by `WaterTestingSystem::exportToCSV`
(lines 797-817), in stream order. -/
def exportToCSVRowFields (run : TestRunResult)
    (fmtInt : ℤ → List Char) (fmtQ : ℚ → List Char) (fmtSqrt : ℚ → List Char) :
    List (List Char) :=
  let a := run.aggregated
  [a.configName, fmtInt run.runIndex, fmtInt a.validFrameCount, fmtInt a.outlierCount,
   fmtQ a.meanFPS, fmtQ a.medianFPS, fmtQ a.fps1Low, fmtQ a.meanFrameTime,
   fmtQ a.medianFrameTime, fmtSqrt a.stddevFrameTimeSq, fmtQ a.minFrameTime,
   fmtQ a.maxFrameTime, fmtQ a.percentile99, fmtQ a.meanGpuTime, fmtQ a.medianGpuTime,
   fmtSqrt a.stddevGpuTimeSq]

/-- The data-row fields written by `WaterTestingSystem::exportSummaryToCSV`
(lines 916-925), in stream order. -/
def exportSummaryRowFields (m : AggregatedRunMetrics)
    (fmtInt : ℤ → List Char) (fmtQ : ℚ → List Char) (fmtSqrt : ℚ → List Char) :
    List (List Char) :=
  [m.configName, fmtInt m.validFrameCount, fmtQ m.meanFPS, fmtQ m.medianFPS,
   fmtQ m.fps1Low, fmtQ m.meanFrameTime, fmtSqrt m.stddevFrameTimeSq]

/-- A CSV data line: the fields joined with the comma separator, exactly as
the `<< ","` stream chain emits them. -/
def csvLine (fields : List (List Char)) : List Char :=
  (List.intersperse [','] fields).flatten

/-! ## Division-instrumented aggregation (for claim C7).

Every division the aggregation path can execute is routed through `cdiv`,
which fails on a zero denominator.  `aggregateMetricsChecked` is the same
control flow as `aggregateMetrics` with every division so instrumented: a
`some` result certifies that the computation performed no division by
zero. -/

/-- Division that reports a zero denominator instead of Lean's `x / 0 = 0`
convention. -/
def cdiv (a b : ℚ) : Option ℚ :=
  if b = 0 then none else some (a / b)

/-- `calculateMean` with its division instrumented. -/
def calculateMeanChecked (values : List ℚ) : Option ℚ :=
  if values.isEmpty then some 0 else cdiv values.sum (values.length : ℚ)

/-- `calculateMedian` with its division instrumented. -/
def calculateMedianChecked (values : List ℚ) : Option ℚ :=
  if values.isEmpty then some 0 else
  let s := sortAsc values
  let n := s.length
  if n % 2 = 0 then cdiv (s.getD (n / 2 - 1) 0 + s.getD (n / 2) 0) 2
  else some (s.getD (n / 2) 0)

/-- Squared `calculateStdDev` with its division instrumented. -/
def calculateStdDevSqChecked (values : List ℚ) (mean : ℚ) : Option ℚ :=
  if values.length < 2 then some 0
  else cdiv ((values.map (fun v => (v - mean) ^ 2)).sum) ((values.length - 1 : ℕ) : ℚ)

/-- `calculatePercentile` with its division instrumented. -/
def calculatePercentileChecked (values : List ℚ) (percentile : ℚ) : Option ℚ :=
  if values.isEmpty then some 0 else do
    let f ← cdiv percentile 100
    some ((sortAsc values).getD (castSizeT (f * ((values.length - 1 : ℕ) : ℚ))) 0)

/-- The FPS-list construction with its per-element division `1000/ft`
instrumented (the source guards each with `ft > 0`). -/
def fpsValuesChecked (clean : List ℚ) : Option (List ℚ) :=
  (clean.filter (fun ft => decide (0 < ft))).mapM (fun ft => cdiv 1000 ft)

/-- `aggregateMetrics` with every division instrumented (same shape and
intermediate lists as `aggregateMetrics`). -/
def aggregateMetricsChecked (raw : List FrameMetrics) (config : WaterTestConfig) :
    Option AggregatedRunMetrics :=
  let agg0 : AggregatedRunMetrics := { configName := config.name }
  if (frameTimesOf raw).isEmpty then some agg0 else do
    let mean ← calculateMeanChecked (frameTimesOf raw)
    let varQ ← calculateStdDevSqChecked (frameTimesOf raw) mean
    let cleanPairs := (timePairsOf raw).filter (fun p => !isOutlier p.1 mean varQ 5)
    let clean := cleanPairs.map (fun p => p.1)
    let cleanGpu := cleanPairs.map (fun p => p.2)
    let agg1 : AggregatedRunMetrics :=
      { agg0 with
        validFrameCount := (clean.length : ℤ)
        outlierCount := (((timePairsOf raw).countP (fun p => isOutlier p.1 mean varQ 5)) : ℤ) }
    if clean.isEmpty then some agg1 else do
      let cleanMean ← calculateMeanChecked clean
      let cleanMedian ← calculateMedianChecked clean
      let cleanVar ← calculateStdDevSqChecked clean cleanMean
      let p99 ← calculatePercentileChecked clean 99
      let fps ← fpsValuesChecked clean
      let fpsMean ← calculateMeanChecked fps
      let fpsMedian ← calculateMedianChecked fps
      let fps1 ← calculatePercentileChecked fps 1
      let gpuMean ← calculateMeanChecked cleanGpu
      let gpuMedian ← calculateMedianChecked cleanGpu
      let gpuVar ← calculateStdDevSqChecked cleanGpu gpuMean
      some
        { agg1 with
          meanFrameTime := cleanMean
          medianFrameTime := cleanMedian
          stddevFrameTimeSq := cleanVar
          minFrameTime := listMin clean
          maxFrameTime := listMax clean
          percentile1Low := p99
          percentile99 := p99
          meanFPS := fpsMean
          medianFPS := fpsMedian
          fps1Low := fps1
          meanGpuTime := gpuMean
          medianGpuTime := gpuMedian
          stddevGpuTimeSq := gpuVar }

/-! ## Spec-side percentile definitions (for claim C1) -/

/-- Follows the spec's words for claim C1: nearest-rank selection on values
sorted ascending at index `round(p/100 · (n-1))` — the *rounded* index the
claim asserts. -/
def percentileSpecRound (values : List ℚ) (p : ℚ) : ℚ :=
  if values.isEmpty then 0
  else (sortAsc values).getD (round (p / 100 * ((values.length - 1 : ℕ) : ℚ))).toNat 0

/-- The amended rule: nearest-rank selection on values sorted ascending at
the *truncated* index `⌊p/100 · (n-1)⌋`. -/
def percentileSpecTrunc (values : List ℚ) (p : ℚ) : ℚ :=
  if values.isEmpty then 0
  else (sortAsc values).getD (⌊p / 100 * ((values.length - 1 : ℕ) : ℚ)⌋).toNat 0

/-! ## Claim C1 -/

/-- Claim C1, counterexample: on the sorted three-element list `[10, 20, 30]`
with `p = 99`, the scaled rank is `0.99 · 2 = 1.98`; `calculatePercentile`
truncates it to index 1 and returns `20`, while the claimed rounding rule
(`round(1.98) = 2`) selects `30`.  The claim that `calculatePercentile`
uses `round(p/100 · (n-1))` is therefore false. -/
theorem c1_counterexample :
    calculatePercentile [10, 20, 30] 99 = 20 ∧
    percentileSpecRound [10, 20, 30] 99 = 30 ∧
    calculatePercentile [10, 20, 30] 99 ≠ percentileSpecRound [10, 20, 30] 99 := by
  have h2 : (2 : ℤ).toNat = 2 := rfl
  norm_num [calculatePercentile, percentileSpecRound, sortAsc, castSizeT, round_eq,
    List.insertionSort, List.orderedInsert, List.getD, h2]

/-- Claim C1 (amended): `calculatePercentile` performs nearest-rank selection
on the values sorted ascending at the *truncated* index
`⌊p/100 · (n-1)⌋` (not the rounded index), `aggregateMetrics` computes both
the 99th-percentile frame time and the 1st-percentile ("1% low") FPS with
this rule, and for any non-empty input and `p ∈ [0, 100]` the selected value
is an element of the input (the index stays in bounds). -/
theorem c1_percentile_truncated_rank (raw : List FrameMetrics)
    (config : WaterTestConfig) (h : cleanFrameTimesOf raw ≠ []) :
    (aggregateMetrics raw config).percentile99 =
      percentileSpecTrunc (cleanFrameTimesOf raw) 99 ∧
    (aggregateMetrics raw config).fps1Low = percentileSpecTrunc (fpsValuesOf raw) 1 ∧
    ∀ values p, values ≠ [] → 0 ≤ p → p ≤ 100 → calculatePercentile values p ∈ values := by
  have hft : frameTimesOf raw ≠ [] := by
    intro hft
    apply h
    simp [cleanFrameTimesOf, cleanPairsOf, timePairsOf, hft]
  have hmain : ∀ values p, values ≠ [] → 0 ≤ p → p ≤ 100 →
      calculatePercentile values p ∈ values := by
    intro values p hne hp0 hp100
    have hlen : (sortAsc values).length = values.length :=
      (List.perm_insertionSort (· ≤ ·) values).length_eq
    have hnpos : 0 < values.length := List.length_pos.mpr hne
    have hidx : castSizeT (p / 100 * ((values.length - 1 : ℕ) : ℚ)) < values.length := by
      have hx : p / 100 * ((values.length - 1 : ℕ) : ℚ) ≤ ((values.length - 1 : ℕ) : ℚ) := by
        have h1 : p / 100 ≤ 1 := by
          rw [div_le_one (by norm_num : (0:ℚ) < 100)]
          exact hp100
        have h2 : (0:ℚ) ≤ ((values.length - 1 : ℕ) : ℚ) := by positivity
        nlinarith
      have hfl : ⌊p / 100 * ((values.length - 1 : ℕ) : ℚ)⌋ ≤ ((values.length - 1 : ℕ) : ℤ) := by
        have := Int.floor_le_floor hx
        simpa using this
      have : castSizeT (p / 100 * ((values.length - 1 : ℕ) : ℚ)) ≤ values.length - 1 := by
        unfold castSizeT
        exact Int.toNat_le.mpr (by exact_mod_cast hfl)
      omega
    unfold calculatePercentile
    rw [if_neg (by simpa [List.isEmpty_iff] using hne)]
    rw [List.getD_eq_getElem _ _ (by omega : _ < (sortAsc values).length)]
    exact ((List.perm_insertionSort (· ≤ ·) values).mem_iff).mp (List.getElem_mem _)
  refine ⟨?_, ?_, hmain⟩
  · simp only [aggregateMetrics]
    rw [if_neg (by simpa [List.isEmpty_iff] using hft),
      if_neg (by simpa [List.isEmpty_iff] using h)]
    rfl
  · simp only [aggregateMetrics]
    rw [if_neg (by simpa [List.isEmpty_iff] using hft),
      if_neg (by simpa [List.isEmpty_iff] using h)]
    rfl

/-- Claim C1, witness: the amended theorem applied to a concrete one-frame
run. -/
theorem c1_percentile_truncated_rank_witness :
    cleanFrameTimesOf [{ frameTimeMs := 16 }] ≠ [] ∧
    ((aggregateMetrics [{ frameTimeMs := 16 }] {}).percentile99 =
      percentileSpecTrunc (cleanFrameTimesOf [{ frameTimeMs := 16 }]) 99 ∧
    (aggregateMetrics [{ frameTimeMs := 16 }] {}).fps1Low =
      percentileSpecTrunc (fpsValuesOf [{ frameTimeMs := 16 }]) 1 ∧
    ∀ values p, values ≠ [] → 0 ≤ p → p ≤ 100 → calculatePercentile values p ∈ values) := by
  have h : cleanFrameTimesOf [({ frameTimeMs := 16 } : FrameMetrics)] ≠ [] := by
    norm_num [cleanFrameTimesOf, cleanPairsOf, timePairsOf, frameTimesOf, gpuTimesOf,
      nonWarmupFrames, runMean, runStdDevSq, calculateMean, calculateStdDevSq, isOutlier,
      List.filter, List.zip, List.zipWith]
  exact ⟨h, c1_percentile_truncated_rank [{ frameTimeMs := 16 }] {} h⟩

/-! ## Claim C7 -/

/-- Claim C7 (confirmed): on an input in which every frame is a warm-up frame
(including the empty input), the division-instrumented aggregation returns
`some` of the zero rollup carrying only the config name — so
`validFrameCount = 0` and no division by zero (in mean, median, stddev,
percentile, or the FPS construction) is executed anywhere on the path. -/
theorem c7_all_warmup_zero_rollup (raw : List FrameMetrics) (config : WaterTestConfig)
    (h : ∀ m ∈ raw, m.isWarmupFrame = true) :
    aggregateMetricsChecked raw config =
      some { configName := config.name } ∧
    ({ configName := config.name : AggregatedRunMetrics }).validFrameCount = 0 := by
  have hnw : nonWarmupFrames raw = [] := by
    simp only [nonWarmupFrames, List.filter_eq_nil_iff]
    intro m hm
    simp [h m hm]
  constructor
  · simp [aggregateMetricsChecked, frameTimesOf, hnw]
  · rfl

/-- Claim C7, witness: the theorem applied to a concrete one-warm-up-frame
list. -/
theorem c7_all_warmup_zero_rollup_witness :
    (∀ m ∈ [({ isWarmupFrame := true } : FrameMetrics)], m.isWarmupFrame = true) ∧
    (aggregateMetricsChecked [{ isWarmupFrame := true }] {} =
      some { configName := WaterTestConfig.name {} } ∧
    ({ configName := WaterTestConfig.name {} : AggregatedRunMetrics }).validFrameCount = 0) := by
  have h : ∀ m ∈ [({ isWarmupFrame := true } : FrameMetrics)], m.isWarmupFrame = true := by
    intro m hm
    simp only [List.mem_singleton] at hm
    simp [hm]
  exact ⟨h, c7_all_warmup_zero_rollup [{ isWarmupFrame := true }] {} h⟩

/-! ## Claim C10 -/

/-- Counting helper: the survivors of a Boolean filter and the count of the
rejected elements partition the list length. -/
theorem length_filter_not_add_countP (l : List (ℚ × ℚ)) (p : ℚ × ℚ → Bool) :
    (l.filter (fun x => !p x)).length + l.countP p = l.length := by
  induction l with
  | nil => simp
  | cons a l ih =>
      by_cases hpa : p a = true
      · simp [List.countP_cons, List.filter_cons, hpa]
        omega
      · simp only [Bool.not_eq_true] at hpa
        simp [List.countP_cons, List.filter_cons, hpa]
        omega

/-- Claim C10 (confirmed): for any input with at least one non-warm-up frame,
the rollup counts satisfy `validFrameCount + outlierCount = number of
non-warm-up frames`, with both counts non-negative; a frame contributes to
exactly one of the two counts (the clean list keeps exactly the pairs the
outlier test rejects from the count, per `length_filter_not_add_countP`). -/
theorem c10_count_partition (raw : List FrameMetrics) (config : WaterTestConfig)
    (h : ∃ m ∈ raw, m.isWarmupFrame = false) :
    (aggregateMetrics raw config).validFrameCount +
      (aggregateMetrics raw config).outlierCount =
      ((raw.filter (fun m => !m.isWarmupFrame)).length : ℤ) ∧
    0 ≤ (aggregateMetrics raw config).validFrameCount ∧
    0 ≤ (aggregateMetrics raw config).outlierCount := by
  obtain ⟨m, hm, hwarm⟩ := h
  have hne : frameTimesOf raw ≠ [] := by
    simp only [frameTimesOf, nonWarmupFrames, ne_eq, List.map_eq_nil_iff,
      List.filter_eq_nil_iff, not_forall]
    exact ⟨m, hm, by simp [hwarm]⟩
  have hlenzip : (timePairsOf raw).length = (nonWarmupFrames raw).length := by
    simp [timePairsOf, frameTimesOf, gpuTimesOf]
  have hkey : (cleanFrameTimesOf raw).length + outlierCountOf raw =
      (nonWarmupFrames raw).length := by
    rw [cleanFrameTimesOf, List.length_map, cleanPairsOf, outlierCountOf, ← hlenzip]
    exact length_filter_not_add_countP (timePairsOf raw)
      (fun p => isOutlier p.1 (runMean raw) (runStdDevSq raw) 5)
  simp only [aggregateMetrics]
  rw [if_neg (by simpa [List.isEmpty_iff] using hne)]
  by_cases hclean : (cleanFrameTimesOf raw).isEmpty
  · rw [if_pos hclean]
    refine ⟨?_, by positivity, by positivity⟩
    rw [show (raw.filter (fun m => !m.isWarmupFrame)) = nonWarmupFrames raw from rfl,
      ← hkey]
    push_cast
    ring
  · rw [if_neg hclean]
    refine ⟨?_, by positivity, by positivity⟩
    rw [show (raw.filter (fun m => !m.isWarmupFrame)) = nonWarmupFrames raw from rfl,
      ← hkey]
    push_cast
    ring

/-- Claim C10, witness: the theorem applied to a concrete two-frame list
(one warm-up frame, one measured frame). -/
theorem c10_count_partition_witness :
    (∃ m ∈ [({ isWarmupFrame := true } : FrameMetrics), { frameTimeMs := 16 }],
      m.isWarmupFrame = false) ∧
    ((aggregateMetrics [{ isWarmupFrame := true }, { frameTimeMs := 16 }] {}).validFrameCount +
      (aggregateMetrics [{ isWarmupFrame := true }, { frameTimeMs := 16 }] {}).outlierCount =
      (([({ isWarmupFrame := true } : FrameMetrics), { frameTimeMs := 16 }].filter
        (fun m => !m.isWarmupFrame)).length : ℤ) ∧
    0 ≤ (aggregateMetrics [{ isWarmupFrame := true }, { frameTimeMs := 16 }] {}).validFrameCount ∧
    0 ≤ (aggregateMetrics [{ isWarmupFrame := true }, { frameTimeMs := 16 }] {}).outlierCount) := by
  have h : ∃ m ∈ [({ isWarmupFrame := true } : FrameMetrics), { frameTimeMs := 16 }],
      m.isWarmupFrame = false := ⟨{ frameTimeMs := 16 }, by simp⟩
  exact ⟨h, c10_count_partition [{ isWarmupFrame := true }, { frameTimeMs := 16 }] {} h⟩

/-! ## Claim C9 -/

/-- Claim C9 (confirmed): while a run is active, `recordFrame` (1) produces
the same state for any value of the caller-supplied `frameIndex` argument
(the argument is ignored), (2) appends exactly the record built from the
internal state, whose `frameIndex` is the internal counter — equal to the
number of frames already recorded under the counter/buffer invariant — and
whose `isWarmupFrame` is the comparison `counter < config.warmupFrames`
(for any representable non-negative warm-up count, where the
`static_cast<uint32_t>` is the identity), and (3) preserves the
counter/buffer invariant, which `startTestRun` establishes. -/
theorem c9_record_frame_uses_internal_counter (st : TestSystemState) (a a' : ℕ)
    (t : ℚ) (n : ℕ) (pos : ℚ × ℚ × ℚ) (y p : ℚ)
    (hrun : st.isRunning = true)
    (hinv : st.currentFrameIndex = st.frameMetrics.length)
    (hw0 : 0 ≤ st.currentConfig.warmupFrames)
    (hw1 : st.currentConfig.warmupFrames < 2 ^ 32)
    (hlen : st.frameMetrics.length + 1 < 2 ^ 32) :
    recordFrame st a t n pos y p = recordFrame st a' t n pos y p ∧
    (recordFrame st a t n pos y p).frameMetrics =
      st.frameMetrics ++ [mkFrameMetrics st t n pos y p] ∧
    (mkFrameMetrics st t n pos y p).frameIndex = st.frameMetrics.length ∧
    (mkFrameMetrics st t n pos y p).isWarmupFrame =
      decide ((st.currentFrameIndex : ℤ) < st.currentConfig.warmupFrames) ∧
    (recordFrame st a t n pos y p).currentFrameIndex =
      (recordFrame st a t n pos y p).frameMetrics.length ∧
    ∀ config runIndex,
      (startTestRun st config runIndex).currentFrameIndex =
        (startTestRun st config runIndex).frameMetrics.length := by
  have hu : uint32OfInt st.currentConfig.warmupFrames =
      st.currentConfig.warmupFrames.toNat := by
    unfold uint32OfInt
    rw [Int.emod_eq_of_lt hw0 hw1]
  refine ⟨rfl, ?_, ?_, ?_, ?_, fun config runIndex => rfl⟩
  · simp [recordFrame, hrun]
  · simp [mkFrameMetrics, hinv]
  · simp only [mkFrameMetrics, hu]
    apply decide_eq_decide.mpr
    exact Int.lt_toNat
  · simp only [recordFrame, hrun, Bool.not_true, Bool.false_eq_true, if_false,
      List.length_append, List.length_singleton]
    rw [hinv, Nat.mod_eq_of_lt hlen]

/-- Claim C9, witness: the theorem applied to a fresh running state with two
different caller-supplied frame indices. -/
theorem c9_record_frame_uses_internal_counter_witness :
    (({ isRunning := true } : TestSystemState).isRunning = true ∧
     ({ isRunning := true } : TestSystemState).currentFrameIndex =
       ({ isRunning := true } : TestSystemState).frameMetrics.length ∧
     0 ≤ ({ isRunning := true } : TestSystemState).currentConfig.warmupFrames ∧
     ({ isRunning := true } : TestSystemState).currentConfig.warmupFrames < 2 ^ 32 ∧
     ({ isRunning := true } : TestSystemState).frameMetrics.length + 1 < 2 ^ 32) ∧
    (recordFrame { isRunning := true } 3 16 0 (0, 0, 0) 0 0 =
      recordFrame { isRunning := true } 7 16 0 (0, 0, 0) 0 0 ∧
    (recordFrame { isRunning := true } 3 16 0 (0, 0, 0) 0 0).frameMetrics =
      ({ isRunning := true } : TestSystemState).frameMetrics ++
        [mkFrameMetrics { isRunning := true } 16 0 (0, 0, 0) 0 0] ∧
    (mkFrameMetrics { isRunning := true } 16 0 (0, 0, 0) 0 0).frameIndex =
      ({ isRunning := true } : TestSystemState).frameMetrics.length ∧
    (mkFrameMetrics { isRunning := true } 16 0 (0, 0, 0) 0 0).isWarmupFrame =
      decide ((({ isRunning := true } : TestSystemState).currentFrameIndex : ℤ) <
        ({ isRunning := true } : TestSystemState).currentConfig.warmupFrames) ∧
    (recordFrame { isRunning := true } 3 16 0 (0, 0, 0) 0 0).currentFrameIndex =
      (recordFrame { isRunning := true } 3 16 0 (0, 0, 0) 0 0).frameMetrics.length ∧
    ∀ config runIndex,
      (startTestRun { isRunning := true } config runIndex).currentFrameIndex =
        (startTestRun { isRunning := true } config runIndex).frameMetrics.length) :=
  ⟨⟨rfl, rfl, by norm_num, by norm_num, by norm_num⟩,
   c9_record_frame_uses_internal_counter { isRunning := true } 3 7 16 0 (0, 0, 0) 0 0
     rfl rfl (by norm_num) (by norm_num) (by norm_num)⟩

/-! ## Claim C6 -/

/-- Claim C6 (confirmed): `readGpuTimestamps` never stores a negative GPU
time (given the physically non-negative tick period and a non-negative
stored value); when the pool is valid and a timestamp pair was written, a
device failure (including not-ready) or a tick pair with `end ≤ start`
retains the previous value unchanged, while a successful read with
`end > start` stores `(endTicks - startTicks) * tickPeriodNs / 1e6`
milliseconds. -/
theorem c6_read_retains_previous (st : GpuTimerState) (dr : DeviceReadResult)
    (h0 : 0 ≤ st.lastGpuTimeMs) (hp : 0 ≤ st.timestampPeriod) :
    0 ≤ (readGpuTimestamps st dr).lastGpuTimeMs ∧
    (st.poolValid = true → st.timestampsWritten = true →
      ((dr = .notReady ∨ dr = .otherError) →
        (readGpuTimestamps st dr).lastGpuTimeMs = st.lastGpuTimeMs) ∧
      (∀ s e, dr = .success s e → e ≤ s →
        (readGpuTimestamps st dr).lastGpuTimeMs = st.lastGpuTimeMs) ∧
      (∀ s e, dr = .success s e → s < e →
        (readGpuTimestamps st dr).lastGpuTimeMs =
          ((e - s : ℕ) : ℚ) * st.timestampPeriod / 1000000)) := by
  constructor
  · by_cases hpool : st.poolValid = true
    · by_cases hw : st.timestampsWritten = true
      · rcases dr with ⟨s, e⟩ | _ | _
        · by_cases hse : s < e
          · simp only [readGpuTimestamps, hpool, hw, Bool.not_true, Bool.false_or,
              Bool.false_eq_true, if_false, hse, if_true]
            positivity
          · simpa [readGpuTimestamps, hpool, hw, hse] using h0
        · simpa [readGpuTimestamps, hpool, hw] using h0
        · simpa [readGpuTimestamps, hpool, hw] using h0
      · simp only [Bool.not_eq_true] at hw
        simpa [readGpuTimestamps, hpool, hw] using h0
    · simp only [Bool.not_eq_true] at hpool
      simp [readGpuTimestamps, hpool]
  · intro hpool hw
    refine ⟨?_, ?_, ?_⟩
    · rintro (rfl | rfl) <;> simp [readGpuTimestamps, hpool, hw]
    · rintro s e rfl hse
      simp [readGpuTimestamps, hpool, hw, Nat.not_lt.mpr hse]
    · rintro s e rfl hse
      simp [readGpuTimestamps, hpool, hw, hse]

/-- Claim C6, witness: the theorem applied to a timer state holding 5 ms,
with a device read reporting `end > start`. -/
theorem c6_read_retains_previous_witness :
    (0 ≤ ({ lastGpuTimeMs := 5, timestampsWritten := true } : GpuTimerState).lastGpuTimeMs ∧
     0 ≤ ({ lastGpuTimeMs := 5, timestampsWritten := true } : GpuTimerState).timestampPeriod) ∧
    (0 ≤ (readGpuTimestamps { lastGpuTimeMs := 5, timestampsWritten := true }
        (.success 10 30)).lastGpuTimeMs ∧
    (({ lastGpuTimeMs := 5, timestampsWritten := true } : GpuTimerState).poolValid = true →
      ({ lastGpuTimeMs := 5, timestampsWritten := true } : GpuTimerState).timestampsWritten = true →
      ((DeviceReadResult.success 10 30 = .notReady ∨
          DeviceReadResult.success 10 30 = .otherError) →
        (readGpuTimestamps { lastGpuTimeMs := 5, timestampsWritten := true }
          (.success 10 30)).lastGpuTimeMs =
          ({ lastGpuTimeMs := 5, timestampsWritten := true } : GpuTimerState).lastGpuTimeMs) ∧
      (∀ s e, DeviceReadResult.success 10 30 = .success s e → e ≤ s →
        (readGpuTimestamps { lastGpuTimeMs := 5, timestampsWritten := true }
          (.success 10 30)).lastGpuTimeMs =
          ({ lastGpuTimeMs := 5, timestampsWritten := true } : GpuTimerState).lastGpuTimeMs) ∧
      (∀ s e, DeviceReadResult.success 10 30 = .success s e → s < e →
        (readGpuTimestamps { lastGpuTimeMs := 5, timestampsWritten := true }
          (.success 10 30)).lastGpuTimeMs =
          ((e - s : ℕ) : ℚ) *
            ({ lastGpuTimeMs := 5, timestampsWritten := true } : GpuTimerState).timestampPeriod /
            1000000))) :=
  ⟨⟨by norm_num, by norm_num⟩,
   c6_read_retains_previous { lastGpuTimeMs := 5, timestampsWritten := true }
     (.success 10 30) (by norm_num) (by norm_num)⟩

/-! ## Claim C5 -/

/-- No operation of the per-frame timer protocol changes the pool-validity
flag (only `createTimestampQueryPool` / `cleanup` do, outside the
protocol). -/
theorem timerStep_poolValid (st : GpuTimerState) (op : TimerOp) :
    (timerStep st op).poolValid = st.poolValid := by
  cases op with
  | reset c =>
      show (resetTimestampQueries st c).poolValid = st.poolValid
      unfold resetTimestampQueries
      split_ifs <;> rfl
  | writeStart c =>
      show (writeTimestampStart st c).1.poolValid = st.poolValid
      unfold writeTimestampStart
      split_ifs <;> rfl
  | writeEnd c =>
      show (writeTimestampEnd st c).1.poolValid = st.poolValid
      unfold writeTimestampEnd
      split_ifs <;> rfl
  | read dr =>
      show (readGpuTimestamps st dr).poolValid = st.poolValid
      unfold readGpuTimestamps
      rcases dr with ⟨s, e⟩ | _ | _ <;> dsimp only <;> split_ifs <;> rfl
  | startRun => rfl

/-- Pool validity is preserved by any operation sequence. -/
theorem runTimerOps_poolValid (st : GpuTimerState) (ops : List TimerOp) :
    (runTimerOps st ops).poolValid = st.poolValid := by
  induction ops generalizing st with
  | nil => rfl
  | cons op rest ih =>
      show (runTimerOps (timerStep st op) rest).poolValid = st.poolValid
      rw [ih, timerStep_poolValid]

/-- As long as no start-write succeeds, both written flags stay down. -/
theorem noStartSuccess_flags (st : GpuTimerState) (ops : List TimerOp)
    (h1 : st.startTimestampWritten = false) (h2 : st.timestampsWritten = false)
    (h : NoStartSuccess st ops) :
    (runTimerOps st ops).startTimestampWritten = false ∧
    (runTimerOps st ops).timestampsWritten = false := by
  induction ops generalizing st with
  | nil => exact ⟨h1, h2⟩
  | cons op rest ih =>
      obtain ⟨hop, hrest⟩ := h
      have hstep : (timerStep st op).startTimestampWritten = false ∧
          (timerStep st op).timestampsWritten = false := by
        cases op with
        | reset c =>
            show (resetTimestampQueries st c).startTimestampWritten = false ∧
              (resetTimestampQueries st c).timestampsWritten = false
            unfold resetTimestampQueries
            split_ifs
            · exact ⟨h1, h2⟩
            · exact ⟨rfl, rfl⟩
        | writeStart c =>
            have hop' : startSucceeds st c = false := hop
            show (writeTimestampStart st c).1.startTimestampWritten = false ∧
              (writeTimestampStart st c).1.timestampsWritten = false
            unfold writeTimestampStart
            split_ifs with hif1 hif2
            · exact ⟨h1, h2⟩
            · exact ⟨rfl, h2⟩
            · exfalso
              rw [startSucceeds] at hop'
              simp only [Bool.not_or, Bool.or_eq_true, Bool.not_eq_true',
                not_or] at hif1
              simp [hif1.1, hif1.2, hif2] at hop'
        | writeEnd c =>
            show (writeTimestampEnd st c).1.startTimestampWritten = false ∧
              (writeTimestampEnd st c).1.timestampsWritten = false
            unfold writeTimestampEnd
            split_ifs with hif1 hif2
            · exact ⟨h1, h2⟩
            · exact ⟨h1, h2⟩
            · exfalso
              simp [h1] at hif2
        | read dr =>
            show (readGpuTimestamps st dr).startTimestampWritten = false ∧
              (readGpuTimestamps st dr).timestampsWritten = false
            unfold readGpuTimestamps
            split_ifs with hif1 hif2
            · exact ⟨h1, h2⟩
            · exact ⟨h1, h2⟩
            · exfalso
              simp [h2] at hif2
        | startRun => exact ⟨rfl, rfl⟩
      exact ih (timerStep st op) hstep.1 hstep.2 hrest

/-- Claim C5 (confirmed): starting from an effective reset (valid pool and
command buffer), if no start-write succeeds during any subsequent operation
sequence, then a call to `writeTimestampEnd` is a no-op — the state is
unchanged, no `vkCmdWriteTimestamp` is issued, and `timestampsWritten` is
still false — and the next `readGpuTimestamps`, whatever the device would
report, leaves the previously computed `m_lastGpuTimeMs` unchanged. -/
theorem c5_end_without_start_noop (st0 : GpuTimerState) (ops : List TimerOp)
    (c : Bool) (dr : DeviceReadResult)
    (hpool : st0.poolValid = true)
    (hmid : NoStartSuccess (resetTimestampQueries st0 true) ops) :
    writeTimestampEnd (runTimerOps (resetTimestampQueries st0 true) ops) c =
      (runTimerOps (resetTimestampQueries st0 true) ops, false) ∧
    (runTimerOps (resetTimestampQueries st0 true) ops).timestampsWritten = false ∧
    (readGpuTimestamps
        (writeTimestampEnd (runTimerOps (resetTimestampQueries st0 true) ops) c).1
        dr).lastGpuTimeMs =
      (runTimerOps (resetTimestampQueries st0 true) ops).lastGpuTimeMs := by
  set st1 := resetTimestampQueries st0 true with hst1
  have hreset : st1.startTimestampWritten = false ∧ st1.timestampsWritten = false ∧
      st1.poolValid = true := by
    rw [hst1]
    unfold resetTimestampQueries
    simp [hpool]
  have hflags := noStartSuccess_flags st1 ops hreset.1 hreset.2.1 hmid
  have hpool2 : (runTimerOps st1 ops).poolValid = true := by
    rw [runTimerOps_poolValid, hreset.2.2]
  have hend : writeTimestampEnd (runTimerOps st1 ops) c = (runTimerOps st1 ops, false) := by
    unfold writeTimestampEnd
    rw [hpool2, hflags.1]
    cases c <;> simp
  refine ⟨hend, hflags.2, ?_⟩
  rw [hend]
  unfold readGpuTimestamps
  rw [hpool2, hflags.2]
  simp

/-- Claim C5, witness: the theorem applied to the default timer state, an
empty mid-sequence, a valid command buffer and a not-ready device answer. -/
theorem c5_end_without_start_noop_witness :
    (({} : GpuTimerState).poolValid = true ∧
     NoStartSuccess (resetTimestampQueries {} true) []) ∧
    (writeTimestampEnd (runTimerOps (resetTimestampQueries {} true) []) true =
      (runTimerOps (resetTimestampQueries {} true) [], false) ∧
    (runTimerOps (resetTimestampQueries {} true) []).timestampsWritten = false ∧
    (readGpuTimestamps
        (writeTimestampEnd (runTimerOps (resetTimestampQueries {} true) []) true).1
        .notReady).lastGpuTimeMs =
      (runTimerOps (resetTimestampQueries {} true) []).lastGpuTimeMs) :=
  ⟨⟨rfl, trivial⟩, c5_end_without_start_noop {} [] true .notReady rfl trivial⟩

/-! ## Claim C2 -/

/-- A 27-frame run (no warm-up frames): 26 frames at 0 ms and one at 27 ms.
The spike deviates from the mean (1 ms) by 26 ms, above the 5-sigma band
`5·√27 ≈ 26.0 - ε` — the smallest configuration in which the source's
5-sigma rule (computed on statistics that include the spike) can fire at
all. -/
def outlierScenarioFrames : List FrameMetrics :=
  List.replicate 26 { frameTimeMs := 0 } ++ [{ frameTimeMs := 27 }]

/-- Zipping two equal-length replicated lists. -/
theorem zip_replicate_same {α β : Type} (a : α) (b : β) :
    ∀ n, (List.replicate n a).zip (List.replicate n b) = List.replicate n (a, b) := by
  intro n
  induction n with
  | zero => rfl
  | succ n ih => simp [List.replicate_succ, ih]

/-- Counting a predicate over a replicated list. -/
theorem countP_replicate {α : Type} (p : α → Bool) (a : α) :
    ∀ n, (List.replicate n a).countP p = if p a then n else 0 := by
  intro n
  induction n with
  | zero => simp
  | succ n ih =>
      rw [List.replicate_succ, List.countP_cons, ih]
      by_cases h : p a <;> simp [h]

/-- None of the scenario frames is a warm-up frame. -/
theorem outlierScenario_nonWarmup :
    nonWarmupFrames outlierScenarioFrames = outlierScenarioFrames := by
  apply List.filter_eq_self.mpr
  intro a ha
  rcases List.mem_append.mp ha with h | h
  · rw [List.eq_of_mem_replicate h]; rfl
  · rw [List.mem_singleton.mp h]; rfl

/-- The non-warm-up frame-time vector of the scenario. -/
theorem outlierScenario_frameTimes :
    frameTimesOf outlierScenarioFrames = List.replicate 26 (0 : ℚ) ++ [27] := by
  rw [frameTimesOf, outlierScenario_nonWarmup]
  simp [outlierScenarioFrames, List.map_replicate]

/-- The parallel GPU-time vector of the scenario. -/
theorem outlierScenario_gpuTimes :
    gpuTimesOf outlierScenarioFrames = List.replicate 26 (0 : ℚ) ++ [0] := by
  rw [gpuTimesOf, outlierScenario_nonWarmup]
  simp [outlierScenarioFrames, List.map_replicate]

/-- Post-warm-up mean of the scenario: `(26·0 + 27)/27 = 1`. -/
theorem outlierScenario_mean : runMean outlierScenarioFrames = 1 := by
  rw [runMean, outlierScenario_frameTimes]
  norm_num [calculateMean, List.sum_append, List.sum_replicate]

/-- Post-warm-up sample variance of the scenario:
`(26·1 + 676)/26 = 27`. -/
theorem outlierScenario_var : runStdDevSq outlierScenarioFrames = 27 := by
  rw [runStdDevSq, outlierScenario_mean, calculateStdDevSq, outlierScenario_frameTimes]
  norm_num [List.map_append, List.map_replicate, List.sum_append, List.sum_replicate]

/-- Claim C2, counterexample: in the 27-frame scenario the 27 ms frame
(index 26, not a warm-up frame) deviates from the post-warm-up mean by more
than 5 sample standard deviations — the source's own test flags it, and the
rollup reports `outlierCount = 1` — yet after aggregation (`endTestRun`)
the raw `FrameMetrics` record still has `isOutlier = false`: the claim that
such frames "have isOutlier set to true in the raw records" is false. -/
theorem c2_counterexample :
    isOutlier 27 (runMean outlierScenarioFrames) (runStdDevSq outlierScenarioFrames) 5 = true ∧
    (outlierScenarioFrames.getD 26 default).isWarmupFrame = false ∧
    (outlierScenarioFrames.getD 26 default).frameTimeMs = 27 ∧
    (aggregateMetrics outlierScenarioFrames {}).outlierCount = 1 ∧
    ((endTestRun { isRunning := true, frameMetrics := outlierScenarioFrames }).1.frameMetrics.getD
        26 default).isOutlier = false := by
  have hget : outlierScenarioFrames.getD 26 default =
      ({ frameTimeMs := 27 } : FrameMetrics) := by
    rw [outlierScenarioFrames, List.getD_eq_getElem _ _ (by simp),
      List.getElem_append_right (by simp)]
    simp
  have hout : isOutlier 27 (runMean outlierScenarioFrames)
      (runStdDevSq outlierScenarioFrames) 5 = true := by
    rw [outlierScenario_mean, outlierScenario_var]
    norm_num [isOutlier]
  refine ⟨hout, by rw [hget], by rw [hget], ?_, by
    show (outlierScenarioFrames.getD 26 default).isOutlier = false
    rw [hget]⟩
  have hcount : outlierCountOf outlierScenarioFrames = 1 := by
    rw [outlierCountOf, timePairsOf, outlierScenario_frameTimes, outlierScenario_gpuTimes,
      List.zip_append (by simp), zip_replicate_same]
    rw [List.countP_append, countP_replicate]
    rw [outlierScenario_mean, outlierScenario_var]
    norm_num [isOutlier, List.countP_cons]
  have hne : ¬(frameTimesOf outlierScenarioFrames).isEmpty = true := by
    rw [outlierScenario_frameTimes]
    simp
  simp only [aggregateMetrics]
  rw [if_neg hne]
  by_cases hcl : (cleanFrameTimesOf outlierScenarioFrames).isEmpty = true
  · rw [if_pos hcl]
    simp [hcount]
  · rw [if_neg hcl]
    simp [hcount]

/-- Claim C2 (amended): `aggregateMetrics` identifies the frames whose time
deviates from the post-warm-up mean by more than 5 sample standard
deviations and reports their number as `outlierCount`, but it never mutates
the raw `FrameMetrics` records (it receives them by const reference):
`endTestRun` hands the buffer on unchanged, and every record ever created by
`recordFrame` carries `isOutlier = false` forever — so no `FrameMetrics`
field at all is mutated after creation, and raw exports show no flagged
frames. -/
theorem c2_outliers_counted_not_marked (st : TestSystemState)
    (raw : List FrameMetrics) (config : WaterTestConfig) (t : ℚ) (n : ℕ)
    (pos : ℚ × ℚ × ℚ) (y p : ℚ) :
    (endTestRun st).1.frameMetrics = st.frameMetrics ∧
    (endTestRun st).2.frameMetrics = st.frameMetrics ∧
    (mkFrameMetrics st t n pos y p).isOutlier = false ∧
    (aggregateMetrics raw config).outlierCount =
      ((timePairsOf raw).countP
        (fun q => isOutlier q.1 (runMean raw) (runStdDevSq raw) 5) : ℤ) := by
  refine ⟨rfl, rfl, rfl, ?_⟩
  simp only [aggregateMetrics]
  by_cases hft : (frameTimesOf raw).isEmpty = true
  · rw [if_pos hft]
    have hzip : timePairsOf raw = [] := by
      simp only [List.isEmpty_iff] at hft
      simp [timePairsOf, hft]
    simp [hzip]
  · rw [if_neg hft]
    by_cases hcl : (cleanFrameTimesOf raw).isEmpty = true
    · rw [if_pos hcl]; rfl
    · rw [if_neg hcl]; rfl

/-! ## Claim C3 -/

/-- The claimed end-to-end configuration: 10 total frames, 2 warm-up
frames. -/
def spikeConfig : WaterTestConfig :=
  { totalFrames := 10, warmupFrames := 2 }

/-- The claimed per-frame wall times: 16 ms everywhere except 200 ms at
frame index 5. -/
def spikeTimes : List ℚ := [16, 16, 16, 16, 16, 200, 16, 16, 16, 16]

/-- The run state after `startTestRun` followed by the ten `recordFrame`
calls of the scenario (GPU time never measured: `m_lastGpuTimeMs = 0`). -/
def spikeRunState : TestSystemState :=
  spikeTimes.foldl
    (fun st ft => recordFrame st st.currentFrameIndex ft 0 (0, 0, 0) 0 0)
    (startTestRun {} spikeConfig 0)

/-- The recorded buffer of the scenario, spelled out. -/
theorem spike_frames : spikeRunState.frameMetrics =
    [{ frameIndex := 0, frameTimeMs := 16, cpuTimeMs := 16, isWarmupFrame := true },
     { frameIndex := 1, frameTimeMs := 16, cpuTimeMs := 16, isWarmupFrame := true },
     { frameIndex := 2, frameTimeMs := 16, cpuTimeMs := 16 },
     { frameIndex := 3, frameTimeMs := 16, cpuTimeMs := 16 },
     { frameIndex := 4, frameTimeMs := 16, cpuTimeMs := 16 },
     { frameIndex := 5, frameTimeMs := 200, cpuTimeMs := 200 },
     { frameIndex := 6, frameTimeMs := 16, cpuTimeMs := 16 },
     { frameIndex := 7, frameTimeMs := 16, cpuTimeMs := 16 },
     { frameIndex := 8, frameTimeMs := 16, cpuTimeMs := 16 },
     { frameIndex := 9, frameTimeMs := 16, cpuTimeMs := 16 }] := by
  norm_num [spikeRunState, spikeTimes, spikeConfig, startTestRun, recordFrame,
    mkFrameMetrics, uint32OfInt, List.foldl]

/-- The scenario's config snapshot survives the recording loop. -/
theorem spike_config : spikeRunState.currentConfig = spikeConfig := rfl

/-- The post-warm-up frame times of the scenario. -/
theorem spike_frameTimes :
    frameTimesOf spikeRunState.frameMetrics = [16, 16, 16, 200, 16, 16, 16, 16] := by
  rw [frameTimesOf, nonWarmupFrames, spike_frames]
  norm_num [List.filter]

/-- The parallel GPU times of the scenario (all zero). -/
theorem spike_gpuTimes :
    gpuTimesOf spikeRunState.frameMetrics = [0, 0, 0, 0, 0, 0, 0, 0] := by
  rw [gpuTimesOf, nonWarmupFrames, spike_frames]
  norm_num [List.filter]

/-- Post-warm-up mean of the scenario: `(7·16 + 200)/8 = 39`. -/
theorem spike_mean : runMean spikeRunState.frameMetrics = 39 := by
  rw [runMean, spike_frameTimes]
  norm_num [calculateMean]

/-- Post-warm-up sample variance of the scenario:
`(7·23² + 161²)/7 = 4232`. -/
theorem spike_var : runStdDevSq spikeRunState.frameMetrics = 4232 := by
  rw [runStdDevSq, spike_mean, calculateStdDevSq, spike_frameTimes]
  norm_num

/-- No frame of the scenario is rejected: even the 200 ms spike deviates by
only `161 < 5·√4232 ≈ 325` from the mean. -/
theorem spike_clean :
    cleanPairsOf spikeRunState.frameMetrics =
      [(16, 0), (16, 0), (16, 0), (200, 0), (16, 0), (16, 0), (16, 0), (16, 0)] := by
  rw [cleanPairsOf, timePairsOf, spike_frameTimes, spike_gpuTimes, spike_mean, spike_var]
  norm_num [List.zip, List.zipWith, List.filter, isOutlier]

/-- The outlier count of the scenario is zero. -/
theorem spike_outlierCount : outlierCountOf spikeRunState.frameMetrics = 0 := by
  rw [outlierCountOf, timePairsOf, spike_frameTimes, spike_gpuTimes, spike_mean, spike_var]
  norm_num [List.zip, List.zipWith, List.countP, List.countP.go, isOutlier]

/-- Claim C3, counterexample: running the claimed scenario
(`totalFrames = 10`, `warmupFrames = 2`, frame 5 at 200 ms) through
`recordFrame` and `endTestRun` yields `validFrameCount = 8` (not the claimed
7), `outlierCount = 0` (not 1), and frame 5 unmarked — the 200 ms spike
inflates the standard deviation so much that it stays inside the 5-sigma
band, so the claimed expectations are false on this code. -/
theorem c3_counterexample :
    (endTestRun spikeRunState).1.aggregated.validFrameCount = 8 ∧
    (endTestRun spikeRunState).1.aggregated.outlierCount = 0 ∧
    ((endTestRun spikeRunState).1.frameMetrics.getD 5 default).isOutlier = false := by
  have hclean : cleanFrameTimesOf spikeRunState.frameMetrics =
      [16, 16, 16, 200, 16, 16, 16, 16] := by
    rw [cleanFrameTimesOf, spike_clean]
    norm_num
  have hagg : (endTestRun spikeRunState).1.aggregated =
      aggregateMetrics spikeRunState.frameMetrics spikeConfig := by
    rw [endTestRun, ← spike_config]
  refine ⟨?_, ?_, ?_⟩
  · rw [hagg]
    simp only [aggregateMetrics]
    rw [if_neg (by rw [spike_frameTimes]; simp)]
    rw [if_neg (by rw [hclean]; simp)]
    rw [hclean]
    rfl
  · rw [hagg]
    simp only [aggregateMetrics]
    rw [if_neg (by rw [spike_frameTimes]; simp)]
    rw [if_neg (by rw [hclean]; simp)]
    rw [spike_outlierCount]
    rfl
  · show (spikeRunState.frameMetrics.getD 5 default).isOutlier = false
    rw [spike_frames]
    rfl

/-- Claim C3 (amended): on the claimed scenario the code returns
`validFrameCount = 8`, `outlierCount = 0` and a mean frame time of exactly
39 ms (the spike is averaged in, not rejected); frame 5 keeps
`frameTimeMs = 200`, is not a warm-up frame, and is not marked as an
outlier in the raw record. -/
theorem c3_spike_not_rejected :
    (endTestRun spikeRunState).1.aggregated.validFrameCount = 8 ∧
    (endTestRun spikeRunState).1.aggregated.outlierCount = 0 ∧
    (endTestRun spikeRunState).1.aggregated.meanFrameTime = 39 ∧
    ((endTestRun spikeRunState).1.frameMetrics.getD 5 default).frameTimeMs = 200 ∧
    ((endTestRun spikeRunState).1.frameMetrics.getD 5 default).isWarmupFrame = false ∧
    ((endTestRun spikeRunState).1.frameMetrics.getD 5 default).isOutlier = false := by
  have hclean : cleanFrameTimesOf spikeRunState.frameMetrics =
      [16, 16, 16, 200, 16, 16, 16, 16] := by
    rw [cleanFrameTimesOf, spike_clean]
    norm_num
  have hagg : (endTestRun spikeRunState).1.aggregated =
      aggregateMetrics spikeRunState.frameMetrics spikeConfig := by
    rw [endTestRun, ← spike_config]
  have hget : (endTestRun spikeRunState).1.frameMetrics.getD 5 default =
      ({ frameIndex := 5, frameTimeMs := 200, cpuTimeMs := 200 } : FrameMetrics) := by
    show (spikeRunState.frameMetrics.getD 5 default) = _
    rw [spike_frames]
    rfl
  refine ⟨?_, ?_, ?_, by rw [hget], by rw [hget], by rw [hget]⟩
  · rw [hagg]
    simp only [aggregateMetrics]
    rw [if_neg (by rw [spike_frameTimes]; simp)]
    rw [if_neg (by rw [hclean]; simp)]
    rw [hclean]
    rfl
  · rw [hagg]
    simp only [aggregateMetrics]
    rw [if_neg (by rw [spike_frameTimes]; simp)]
    rw [if_neg (by rw [hclean]; simp)]
    rw [spike_outlierCount]
    rfl
  · rw [hagg]
    simp only [aggregateMetrics]
    rw [if_neg (by rw [spike_frameTimes]; simp)]
    rw [if_neg (by rw [hclean]; simp)]
    rw [hclean]
    norm_num [calculateMean]

/-! ## Claim C4 -/

/-- Strictly increasing timestamps, read off at positions. -/
theorem pairwise_ts_mono (kfs : List CameraKeyframe)
    (hp : List.Pairwise (fun x y => x.timestamp < y.timestamp) kfs)
    (i j : ℕ) (hij : i < j) (hj : j < kfs.length) :
    (kfs.getD i default).timestamp < (kfs.getD j default).timestamp := by
  rw [List.getD_eq_getElem _ _ (lt_trans hij hj), List.getD_eq_getElem _ _ hj]
  have := List.pairwise_iff_get.mp hp ⟨i, lt_trans hij hj⟩ ⟨j, hj⟩ hij
  simpa using this

/-- Every keyframe's timestamp is bounded by the last one's. -/
theorem mem_ts_le_last (kfs : List CameraKeyframe)
    (hp : List.Pairwise (fun x y => x.timestamp < y.timestamp) kfs)
    (k : CameraKeyframe) (hk : k ∈ kfs) :
    k.timestamp ≤ (kfs.getD (kfs.length - 1) default).timestamp := by
  obtain ⟨i, hi, rfl⟩ := List.mem_iff_getElem.mp hk
  rw [← List.getD_eq_getElem kfs default hi]
  rcases Nat.lt_or_ge i (kfs.length - 1) with h | h
  · exact le_of_lt (pairwise_ts_mono kfs hp i (kfs.length - 1) h (by omega))
  · have : i = kfs.length - 1 := by omega
    rw [this]

/-- The scan loop lands on segment `j` when queried at the timestamp of
keyframe `j + 1` (strictly increasing timestamps). -/
theorem findSegmentIndex_at (j : ℕ) :
    ∀ (a b : CameraKeyframe) (l : List CameraKeyframe),
      List.Pairwise (fun x y => x.timestamp < y.timestamp) (a :: b :: l) →
      j + 1 < (a :: b :: l).length →
      findSegmentIndex (((a :: b :: l).getD (j + 1) default).timestamp) (a :: b :: l) = j := by
  induction j with
  | zero =>
      intro a b l hp hj
      show findSegmentIndex b.timestamp (a :: b :: l) = 0
      simp only [findSegmentIndex]
      rw [if_pos le_rfl]
  | succ j ih =>
      intro a b l hp hj
      match l, hj with
      | c :: l', hj =>
        have hlen : j + 1 < (b :: c :: l').length := by
          simp only [List.length_cons] at hj ⊢
          omega
        have hblt : b.timestamp <
            (((b :: c :: l').getD (j + 1) default).timestamp) := by
          have := pairwise_ts_mono (b :: c :: l') hp.of_cons 0 (j + 1) (by omega)
            (by simpa using hlen)
          simpa using this
        have hstep : ((a :: b :: c :: l').getD (j + 1 + 1) default) =
            ((b :: c :: l').getD (j + 1) default) := rfl
        rw [hstep]
        have hone : findSegmentIndex ((b :: c :: l').getD (j + 1) default).timestamp
            (a :: b :: c :: l') =
            (if ((b :: c :: l').getD (j + 1) default).timestamp ≤ b.timestamp then 0
             else findSegmentIndex ((b :: c :: l').getD (j + 1) default).timestamp
               (b :: c :: l') + 1) := rfl
        rw [hone, if_neg (not_le.mpr hblt), ih b c l' hp.of_cons hlen]

/-- The scan loop runs off the end (returning `size - 1`) when every
keyframe beyond the first lies strictly below the query time. -/
theorem findSegmentIndex_all_lt (t : ℚ) :
    ∀ (a : CameraKeyframe) (l : List CameraKeyframe),
      (∀ k ∈ l, k.timestamp < t) → findSegmentIndex t (a :: l) = l.length := by
  intro a l
  induction l generalizing a with
  | nil => intro _; rfl
  | cons b l' ih =>
      intro h
      simp only [findSegmentIndex]
      rw [if_neg (not_le.mpr (h b (by simp))), ih b (fun k hk => h k (by simp [hk]))]
      simp

/-- Unfolding of `interpolate` for a path with at least two keyframes. -/
theorem interpolate_eq_body (path : DeterministicCameraPath) (a b : CameraKeyframe)
    (l : List CameraKeyframe) (hk : path.keyframes = a :: b :: l) (tIn : ℚ) :
    interpolate path tIn =
      (let t := glmClamp01 tIn
       let i := findSegmentIndex t (a :: b :: l)
       let k0 := (a :: b :: l).getD i default
       let nextIdx :=
         if i + 1 < (a :: b :: l).length then i + 1 else (a :: b :: l).length - 1
       let k1 := (a :: b :: l).getD nextIdx default
       let segmentT :=
         if k0.timestamp < k1.timestamp then
           (t - k0.timestamp) / (k1.timestamp - k0.timestamp)
         else 0
       let smoothT := segmentT * segmentT * (3 - 2 * segmentT)
       { position := glmMix3 k0.position k1.position smoothT
         yaw := k0.yaw + (k1.yaw - k0.yaw) * smoothT
         pitch := k0.pitch + (k1.pitch - k0.pitch) * smoothT
         timestamp := t }) := by
  rw [interpolate, hk]
  rw [if_neg (by simp), if_neg (by simp)]

/-- Exactness at keyframe `j + 1`: the local parameter resolves to exactly 1
and the blend returns keyframe `j + 1`'s pose unchanged. -/
theorem interpolate_at_succ (path : DeterministicCameraPath) (a b : CameraKeyframe)
    (l : List CameraKeyframe) (hk : path.keyframes = a :: b :: l)
    (hp : List.Pairwise (fun x y => x.timestamp < y.timestamp) (a :: b :: l))
    (h0 : 0 ≤ a.timestamp)
    (hlast : (((a :: b :: l)).getD ((a :: b :: l).length - 1) default).timestamp ≤ 1)
    (j : ℕ) (hj : j + 1 < (a :: b :: l).length) :
    PoseEq (interpolate path (((a :: b :: l).getD (j + 1) default).timestamp))
      ((a :: b :: l).getD (j + 1) default) := by
  have h0t : 0 ≤ (((a :: b :: l)).getD (j + 1) default).timestamp := by
    have := pairwise_ts_mono (a :: b :: l) hp 0 (j + 1) (by omega) hj
    have ha : ((a :: b :: l).getD 0 default) = a := rfl
    rw [ha] at this
    linarith
  have h1t : (((a :: b :: l)).getD (j + 1) default).timestamp ≤ 1 := by
    rcases Nat.lt_or_ge (j + 1) ((a :: b :: l).length - 1) with h | h
    · exact le_trans
        (le_of_lt (pairwise_ts_mono (a :: b :: l) hp (j + 1) ((a :: b :: l).length - 1) h
          (by simp only [List.length_cons]; omega))) hlast
    · have : j + 1 = (a :: b :: l).length - 1 := by omega
      rw [this]
      exact hlast
  have hclamp : glmClamp01 (((a :: b :: l)).getD (j + 1) default).timestamp =
      (((a :: b :: l)).getD (j + 1) default).timestamp := by
    rw [glmClamp01, max_eq_left h0t, min_eq_left h1t]
  have hmono : ((a :: b :: l).getD j default).timestamp <
      ((a :: b :: l).getD (j + 1) default).timestamp :=
    pairwise_ts_mono (a :: b :: l) hp j (j + 1) (by omega) hj
  have hseg : ((((a :: b :: l)).getD (j + 1) default).timestamp -
        ((a :: b :: l).getD j default).timestamp) /
      ((((a :: b :: l)).getD (j + 1) default).timestamp -
        ((a :: b :: l).getD j default).timestamp) = 1 :=
    div_self (sub_ne_zero.mpr (ne_of_gt hmono))
  rw [interpolate_eq_body path a b l hk]
  simp only [hclamp, findSegmentIndex_at j a b l hp hj, if_pos hj, if_pos hmono, hseg]
  refine ⟨?_, ?_, ?_⟩
  · show glmMix3 _ _ (1 * 1 * (3 - 2 * 1)) = _
    rw [glmMix3, glmMix, glmMix, glmMix]
    norm_num
  · show _ + (_ - _) * (1 * 1 * (3 - 2 * 1)) = _
    ring
  · show _ + (_ - _) * (1 * 1 * (3 - 2 * 1)) = _
    ring

/-- Exactness at the first keyframe when its timestamp is 0: the local
parameter resolves to exactly 0. -/
theorem interpolate_at_first (path : DeterministicCameraPath) (a b : CameraKeyframe)
    (l : List CameraKeyframe) (hk : path.keyframes = a :: b :: l)
    (hp : List.Pairwise (fun x y => x.timestamp < y.timestamp) (a :: b :: l))
    (ha : a.timestamp = 0) :
    PoseEq (interpolate path a.timestamp) a := by
  have hab : a.timestamp < b.timestamp := by
    have := pairwise_ts_mono (a :: b :: l) hp 0 1 (by omega) (by simp)
    simpa using this
  have hclamp : glmClamp01 a.timestamp = a.timestamp := by
    rw [glmClamp01, ha]
    norm_num
  have hfind : findSegmentIndex a.timestamp (a :: b :: l) = 0 := by
    simp only [findSegmentIndex]
    rw [if_pos (le_of_lt hab)]
  rw [interpolate_eq_body path a b l hk]
  simp only [hclamp, hfind]
  have hk0 : ((a :: b :: l).getD 0 default) = a := rfl
  have hk1 : ((a :: b :: l).getD (0 + 1) default) = b := rfl
  simp only [hk0, if_pos (by simp : 0 + 1 < (a :: b :: l).length), hk1, if_pos hab,
    sub_self, zero_div]
  refine ⟨?_, ?_, ?_⟩
  · show glmMix3 _ _ (0 * 0 * (3 - 2 * 0)) = _
    rw [glmMix3, glmMix, glmMix, glmMix]
    norm_num
  · show _ + (_ - _) * (0 * 0 * (3 - 2 * 0)) = _
    ring
  · show _ + (_ - _) * (0 * 0 * (3 - 2 * 0)) = _
    ring

/-- Claim C4, counterexample: the claim quantifies over every path with at
least two strictly-increasing timestamps in `[0, 1]`, but for the
two-keyframe path with timestamps `1/2` and `1` (yaws 0 and 1),
`interpolate` at `t = 0` extrapolates the first segment with local parameter
`-1`, smoothsteps it to `5`, and returns yaw `5` — not the first keyframe's
pose.  The claim as stated is false. -/
theorem c4_counterexample :
    2 ≤ ({ keyframes := [{ yaw := 0, timestamp := 1/2 }, { yaw := 1, timestamp := 1 }] } :
      DeterministicCameraPath).keyframes.length ∧
    List.Pairwise (fun x y => x.timestamp < y.timestamp)
      ({ keyframes := [{ yaw := 0, timestamp := 1/2 }, { yaw := 1, timestamp := 1 }] } :
        DeterministicCameraPath).keyframes ∧
    (∀ k ∈ ({ keyframes := [{ yaw := 0, timestamp := 1/2 }, { yaw := 1, timestamp := 1 }] } :
        DeterministicCameraPath).keyframes, 0 ≤ k.timestamp ∧ k.timestamp ≤ 1) ∧
    (interpolate { keyframes := [{ yaw := 0, timestamp := 1/2 }, { yaw := 1, timestamp := 1 }] }
        0).yaw = 5 ∧
    ¬ PoseEq
      (interpolate { keyframes := [{ yaw := 0, timestamp := 1/2 }, { yaw := 1, timestamp := 1 }] }
        0)
      (({ keyframes := [{ yaw := 0, timestamp := 1/2 }, { yaw := 1, timestamp := 1 }] } :
        DeterministicCameraPath).keyframes.getD 0 default) := by
  have hyaw : (interpolate
      { keyframes := [{ yaw := 0, timestamp := 1/2 }, { yaw := 1, timestamp := 1 }] }
      0).yaw = 5 := by
    rw [interpolate_eq_body _ { yaw := 0, timestamp := 1/2 } { yaw := 1, timestamp := 1 } []
      rfl]
    have hclamp : glmClamp01 0 = 0 := by
      rw [glmClamp01]
      norm_num
    have hfind : findSegmentIndex (0 : ℚ)
        [{ yaw := 0, timestamp := 1/2 }, { yaw := 1, timestamp := 1 }] = 0 := by
      simp only [findSegmentIndex]
      norm_num
    simp only [hclamp, hfind]
    norm_num [List.getD]
  refine ⟨by simp, by norm_num [List.pairwise_cons], by norm_num, hyaw, ?_⟩
  intro hpose
  have := hpose.2.1
  rw [hyaw] at this
  norm_num [List.getD] at this

/-- Claim C4 (amended): for every path with at least two keyframes with
strictly increasing timestamps, *whose first keyframe has timestamp 0* and
whose last timestamp is at most 1, interpolation is exact at every keyframe
timestamp (the smoothstep parameter resolves to 0 or 1, never a blend):
`interpolate 0` returns the first keyframe's pose, `interpolate 1` the last
keyframe's pose, and `interpolate k.timestamp` the pose of `k` for every
keyframe `k`.  (Only the `first timestamp = 0` hypothesis was added; the
counterexample shows the property fails without it.) -/
theorem c4_keyframe_exactness (path : DeterministicCameraPath)
    (h2 : 2 ≤ path.keyframes.length)
    (hp : List.Pairwise (fun x y => x.timestamp < y.timestamp) path.keyframes)
    (hfirst : (path.keyframes.getD 0 default).timestamp = 0)
    (hlast : (path.keyframes.getD (path.keyframes.length - 1) default).timestamp ≤ 1) :
    (∀ j, j < path.keyframes.length →
      PoseEq (interpolate path ((path.keyframes.getD j default).timestamp))
        (path.keyframes.getD j default)) ∧
    PoseEq (interpolate path 0) (path.keyframes.getD 0 default) ∧
    PoseEq (interpolate path 1)
      (path.keyframes.getD (path.keyframes.length - 1) default) := by
  match hkk : path.keyframes, h2 with
  | a :: b :: l, _ =>
    have hp' : List.Pairwise (fun x y => x.timestamp < y.timestamp) (a :: b :: l) := by
      rw [hkk] at hp
      exact hp
    have hfirst' : a.timestamp = 0 := by
      rw [hkk] at hfirst
      exact hfirst
    have hlast' : ((a :: b :: l).getD ((a :: b :: l).length - 1) default).timestamp ≤ 1 := by
      rw [hkk] at hlast
      exact hlast
    have hall : ∀ j, j < (a :: b :: l).length →
        PoseEq (interpolate path (((a :: b :: l).getD j default).timestamp))
          ((a :: b :: l).getD j default) := by
      intro j hj
      match j with
      | 0 => exact interpolate_at_first path a b l hkk hp' hfirst'
      | j + 1 =>
          exact interpolate_at_succ path a b l hkk hp' (le_of_eq hfirst'.symm) hlast' j hj
    refine ⟨hall, ?_, ?_⟩
    · have := hall 0 (by simp)
      rw [show ((a :: b :: l).getD 0 default).timestamp = 0 from hfirst'] at this
      exact this
    · rcases eq_or_lt_of_le hlast' with heq | hlt
      · have := hall ((a :: b :: l).length - 1) (by simp only [List.length_cons]; omega)
        rw [heq] at this
        exact this
      · have hallk : ∀ k ∈ b :: l, k.timestamp < 1 := by
          intro k hkmem
          exact lt_of_le_of_lt
            (mem_ts_le_last (a :: b :: l) hp' k (by simp [hkmem])) hlt
        have hfind : findSegmentIndex 1 (a :: b :: l) = (a :: b :: l).length - 1 := by
          rw [findSegmentIndex_all_lt 1 a (b :: l) hallk]
          simp
        have hclamp : glmClamp01 1 = 1 := by
          rw [glmClamp01]
          norm_num
        rw [interpolate_eq_body path a b l hkk]
        simp only [hclamp, hfind]
        rw [if_neg (by simp only [List.length_cons]; omega)]
        rw [if_neg (lt_irrefl _)]
        refine ⟨?_, ?_, ?_⟩
        · show glmMix3 _ _ (0 * 0 * (3 - 2 * 0)) = _
          rw [glmMix3, glmMix, glmMix, glmMix]
          norm_num
        · show _ + (_ - _) * (0 * 0 * (3 - 2 * 0)) = _
          ring
        · show _ + (_ - _) * (0 * 0 * (3 - 2 * 0)) = _
          ring

/-- Claim C4, witness: the amended theorem applied to a concrete
two-keyframe path with timestamps 0 and 1. -/
theorem c4_keyframe_exactness_witness :
    (2 ≤ ({ keyframes := [{ timestamp := 0 }, { yaw := 1, timestamp := 1 }] } :
        DeterministicCameraPath).keyframes.length ∧
     List.Pairwise (fun x y => x.timestamp < y.timestamp)
       ({ keyframes := [{ timestamp := 0 }, { yaw := 1, timestamp := 1 }] } :
         DeterministicCameraPath).keyframes ∧
     (({ keyframes := [{ timestamp := 0 }, { yaw := 1, timestamp := 1 }] } :
         DeterministicCameraPath).keyframes.getD 0 default).timestamp = 0 ∧
     (({ keyframes := [{ timestamp := 0 }, { yaw := 1, timestamp := 1 }] } :
         DeterministicCameraPath).keyframes.getD
       (({ keyframes := [{ timestamp := 0 }, { yaw := 1, timestamp := 1 }] } :
         DeterministicCameraPath).keyframes.length - 1) default).timestamp ≤ 1) ∧
    ((∀ j, j < ({ keyframes := [{ timestamp := 0 }, { yaw := 1, timestamp := 1 }] } :
        DeterministicCameraPath).keyframes.length →
      PoseEq
        (interpolate { keyframes := [{ timestamp := 0 }, { yaw := 1, timestamp := 1 }] }
          ((({ keyframes := [{ timestamp := 0 }, { yaw := 1, timestamp := 1 }] } :
            DeterministicCameraPath).keyframes.getD j default).timestamp))
        (({ keyframes := [{ timestamp := 0 }, { yaw := 1, timestamp := 1 }] } :
          DeterministicCameraPath).keyframes.getD j default)) ∧
    PoseEq (interpolate { keyframes := [{ timestamp := 0 }, { yaw := 1, timestamp := 1 }] } 0)
      (({ keyframes := [{ timestamp := 0 }, { yaw := 1, timestamp := 1 }] } :
        DeterministicCameraPath).keyframes.getD 0 default) ∧
    PoseEq (interpolate { keyframes := [{ timestamp := 0 }, { yaw := 1, timestamp := 1 }] } 1)
      (({ keyframes := [{ timestamp := 0 }, { yaw := 1, timestamp := 1 }] } :
        DeterministicCameraPath).keyframes.getD
        (({ keyframes := [{ timestamp := 0 }, { yaw := 1, timestamp := 1 }] } :
          DeterministicCameraPath).keyframes.length - 1) default)) := by
  have hpre1 : List.Pairwise (fun x y => x.timestamp < y.timestamp)
      ({ keyframes := [{ timestamp := 0 }, { yaw := 1, timestamp := 1 }] } :
        DeterministicCameraPath).keyframes := by
    norm_num [List.pairwise_cons]
  refine ⟨⟨by simp, hpre1, rfl, by norm_num [List.getD]⟩, ?_⟩
  exact c4_keyframe_exactness
    { keyframes := [{ timestamp := 0 }, { yaw := 1, timestamp := 1 }] }
    (by simp) hpre1 rfl (by norm_num [List.getD])

/-! ## Claim C8 -/

/-- The character-append loop of `escapeCSV` builds the concatenation of the
per-character expansions. -/
theorem foldl_append_eq_flatMap (f : Char → List Char) :
    ∀ (s acc : List Char),
      s.foldl (fun acc c => acc ++ f c) acc = acc ++ s.flatMap f := by
  intro s
  induction s with
  | nil => intro acc; simp
  | cons c s ih =>
      intro acc
      simp [List.foldl_cons, List.flatMap_cons, ih]

/-- Claim C8, counterexample: the suite-summary exporter writes the config
name verbatim as the first CSV field, so a name containing a comma —
`"a,b"` — appears unescaped in the row, even though `escapeCSV` would have
wrapped it as `"\"a,b\""`.  The claim that every field containing a
separator appears quote-escaped is false (the exporters never call
`escapeCSV`). -/
theorem c8_counterexample :
    (exportSummaryRowFields { configName := "a,b".toList } (fun _ => "0".toList)
      (fun _ => "0".toList) (fun _ => "0".toList)).getD 0 [] = "a,b".toList ∧
    ("a,b".toList.contains ',') = true ∧
    escapeCSV "a,b".toList = "\"a,b\"".toList ∧
    "a,b".toList ≠ "\"a,b\"".toList := by
  refine ⟨rfl, by decide, by decide, by decide⟩

/-- Claim C8 (amended): `escapeCSV` itself implements exactly the claimed
rule — a field containing a separator or quote is wrapped in double quotes
with each embedded quote doubled, and any other field is returned
unchanged — but the three exporters do not invoke it: the per-run, cross-run
and suite-summary rows write the config-name field verbatim, so a field
containing a separator or quote appears unescaped in the CSV output. -/
theorem c8_escape_exists_but_unused (s : List Char) (run : TestRunResult)
    (m : AggregatedRunMetrics) (ts : List Char)
    (fmtInt : ℤ → List Char) (fmtQ : ℚ → List Char) (fmtSqrt : ℚ → List Char)
    (h : (s.contains ',' || s.contains '"') = true) :
    escapeCSV s = specQuoteEscape s ∧
    (∀ s', (s'.contains ',' || s'.contains '"') = false → escapeCSV s' = s') ∧
    (appendRunRowFields run ts fmtInt fmtQ fmtSqrt).getD 1 [] = run.config.name ∧
    (exportToCSVRowFields run fmtInt fmtQ fmtSqrt).getD 0 [] = run.aggregated.configName ∧
    (exportSummaryRowFields m fmtInt fmtQ fmtSqrt).getD 0 [] = m.configName := by
  refine ⟨?_, ?_, rfl, rfl, rfl⟩
  · rw [escapeCSV, if_pos h, specQuoteEscape,
      foldl_append_eq_flatMap (fun c => if c = '"' then ['"', '"'] else [c]) s ['"']]
  · intro s' hs'
    rw [escapeCSV, if_neg (by simp only [hs']; exact Bool.false_ne_true)]

/-- Claim C8, witness: the amended theorem applied to the comma-containing
field `"a,b"` and concrete rows. -/
theorem c8_escape_exists_but_unused_witness :
    (("a,b".toList.contains ',' || "a,b".toList.contains '"') = true) ∧
    (escapeCSV "a,b".toList = specQuoteEscape "a,b".toList ∧
    (∀ s', (s'.contains ',' || s'.contains '"') = false → escapeCSV s' = s') ∧
    (appendRunRowFields {} "t".toList (fun _ => []) (fun _ => []) (fun _ => [])).getD 1 [] =
      ({} : TestRunResult).config.name ∧
    (exportToCSVRowFields {} (fun _ => []) (fun _ => []) (fun _ => [])).getD 0 [] =
      ({} : TestRunResult).aggregated.configName ∧
    (exportSummaryRowFields {} (fun _ => []) (fun _ => []) (fun _ => [])).getD 0 [] =
      ({} : AggregatedRunMetrics).configName) :=
  ⟨by decide,
   c8_escape_exists_but_unused "a,b".toList {} {} "t".toList (fun _ => []) (fun _ => [])
     (fun _ => []) (by decide)⟩

end XeRender
